import Mathlib

/-!
Verification of the core logic of `src/dhyanee.py` (health symptom checker):
the static disease catalog `DISEASE_DB`, the emergency detector
`detect_emergency`, and the TF-IDF cosine-similarity matcher
`match_symptoms` together with the score-descending ranking
`sorted_results`.

Strings are modelled by Lean `String`; Python's substring operator
`a in b` is modelled by `substrB` over the underlying character lists.
The TF-IDF similarity is modelled exactly over `ℝ` (scikit-learn's
default `TfidfVectorizer`: tokens are maximal runs of at least two word
characters after lower-casing, raw term counts weighted by the smoothed
idf `log ((1+n)/(1+df)) + 1`, rows L2-normalised, and
`cosine_similarity` mapping any zero-norm row to similarity 0).
-/

/-- One catalog entry of `DISEASE_DB`: symptom list, advice, notes. -/
structure DiseaseInfo where
  symptoms : List String
  advice : String
  notes : String
deriving DecidableEq, Repr

/-- The rule-based disease library `DISEASE_DB` of `dhyanee.py`
(a Python `dict`, iterated in insertion order, hence a list of pairs). -/
def DISEASE_DB : List (String × DiseaseInfo) := [
  ("Common Cold", {
    symptoms := ["sneezing", "runny nose", "stuffy nose", "sore throat", "mild cough", "mild fever"],
    advice := "Rest, stay hydrated, use over-the-counter remedies for symptoms, avoid close contact with vulnerable people.",
    notes := "Usually mild and improves in ~7–10 days." }),
  ("Influenza (Flu)", {
    symptoms := ["fever", "chills", "body aches", "fatigue", "headache", "dry cough", "sore throat"],
    advice := "Rest, fluids, consider antiviral treatment if within 48 hours and high-risk. See a clinician if symptoms worsen.",
    notes := "Can be more severe than a common cold, especially in elderly or those with chronic illness." }),
  ("COVID-19 (possible)", {
    symptoms := ["fever", "dry cough", "loss of taste", "loss of smell", "shortness of breath", "fatigue", "sore throat"],
    advice := "Isolate until tested/cleared, consider testing, monitor breathing; seek medical attention if breathing difficulty develops.",
    notes := "Follow local public health guidance for testing and isolation." }),
  ("Migraine", {
    symptoms := ["headache", "throbbing headache", "nausea", "sensitivity to light", "sensitivity to sound"],
    advice := "Rest in a dark quiet room, use prescribed migraine meds if you have them, see a doctor if new severe headaches occur.",
    notes := "Sudden, very severe headache may require urgent evaluation." }),
  ("General Headache", {
    symptoms := ["mild headache", "tension headache", "head pain", "stress headache"],
    advice := "Hydrate, rest, manage stress. Use mild pain relievers if needed. See a doctor if headaches are frequent or severe.",
    notes := "Most headaches are not serious, but persistent or sudden severe headaches should be evaluated." }),
  ("Muscle or Body Pain", {
    symptoms := ["muscle pain", "body aches", "back pain", "neck pain", "joint pain"],
    advice := "Rest, gentle stretching, over-the-counter pain relievers. If pain is persistent or severe, seek medical advice.",
    notes := "Can be caused by strain, flu, or other conditions." }),
  ("Stomachache", {
    symptoms := ["stomach pain", "abdominal pain", "bloating", "indigestion"],
    advice := "Avoid heavy meals, rest, hydrate. Seek care if severe, persistent, or associated with vomiting blood or black stools.",
    notes := "Common and often self-limited, but may signal more serious illness." }),
  ("Urinary Tract Infection (UTI)", {
    symptoms := ["painful urination", "burning urination", "frequent urination", "lower abdominal pain", "cloudy urine"],
    advice := "Drink fluids, see a clinician for urine testing and antibiotics if a UTI is suspected.",
    notes := "Left untreated, can ascend and cause kidney infection." }),
  ("Gastroenteritis / Food Poisoning", {
    symptoms := ["nausea", "vomiting", "diarrhea", "stomach cramps", "fever"],
    advice := "Stay hydrated (oral rehydration), rest. Seek care if unable to keep fluids down, blood in stool, severe dehydration, or high fever.",
    notes := "Often self-limited but can be serious in very young, elderly, or immunocompromised." }),
  ("Allergic Rhinitis (Allergy)", {
    symptoms := ["sneezing", "itchy eyes", "runny nose", "watery eyes", "nasal congestion"],
    advice := "Avoid triggers, consider antihistamines or nasal steroid sprays. See an allergist if persistent.",
    notes := "Usually no fever." })
]

/-- The fixed emergency symptom list `EMERGENCY_SYMPTOMS` of `dhyanee.py`. -/
def EMERGENCY_SYMPTOMS : List String := [
  "trouble breathing", "shortness of breath", "difficulty breathing",
  "chest pain", "pressure in chest", "sudden confusion",
  "loss of consciousness", "unresponsiveness", "bluish lips", "bluish face",
  "severe bleeding", "severe head injury", "sudden severe weakness on one side"
]

/-- `leadsWith a b` : the character list `a` is an initial segment of `b`. -/
def leadsWith : List Char → List Char → Bool
  | [], _ => true
  | _ :: _, [] => false
  | a :: as, b :: bs => a == b && leadsWith as bs

/-- `occursIn a b` : `a` occurs as a contiguous segment of `b`
(Python's `a in b` on strings). -/
def occursIn (a : List Char) : List Char → Bool
  | [] => a.isEmpty
  | b :: bs => leadsWith a (b :: bs) || occursIn a bs

/-- Python's substring test `a in b` on two strings. -/
def substrB (a b : String) : Bool := occursIn a.data b.data

/-- `detect_emergency` of `dhyanee.py`: collect every emergency term `em`
such that for some reported symptom `s`, `em in s or s in em`
(bidirectional substring containment), then deduplicate
(Python `list(set(found))`; the set's iteration order is unspecified,
so we use `List.dedup` as the canonical representative and state all
properties at the level of membership). -/
def detect_emergency (user_symptoms : List String) : List String :=
  (user_symptoms.flatMap
    (fun s => EMERGENCY_SYMPTOMS.filter (fun em => substrB em s || substrB s em))).dedup

/-- A word character of scikit-learn's default token pattern
`\b\w\w+\b` : alphanumeric or underscore. -/
def isWordChar (c : Char) : Bool := c.isAlphanum || c == '_'

/-- Split a character list into its maximal runs of word characters
(the accumulator holds the current run, reversed). -/
def tokenRunsAux : List Char → List Char → List (List Char)
  | [], cur => if cur.isEmpty then [] else [cur.reverse]
  | c :: cs, cur =>
    if isWordChar c then tokenRunsAux cs (c :: cur)
    else if cur.isEmpty then tokenRunsAux cs []
    else cur.reverse :: tokenRunsAux cs []

/-- `TfidfVectorizer`'s default analyzer: lower-case, then keep every
maximal run of at least two word characters as a token. -/
def tokenize (s : String) : List String :=
  ((tokenRunsAux (s.data.map Char.toLower) []).filter (fun r => 2 ≤ r.length)).map String.mk

/-- Raw term frequency of token `t` in document `doc`. -/
def tf (t : String) (doc : String) : ℕ := (tokenize doc).count t

/-- Document frequency of token `t` in corpus `c`. -/
def df (c : List String) (t : String) : ℕ := c.countP (fun d => (tokenize d).contains t)

/-- The vocabulary fitted on corpus `c`: all distinct tokens. -/
def vocab (c : List String) : List String := (c.flatMap tokenize).dedup

/-- Smoothed inverse document frequency (`TfidfVectorizer` default
`smooth_idf=True`): `log ((1 + n) / (1 + df)) + 1`. -/
noncomputable def idf (c : List String) (t : String) : ℝ :=
  Real.log ((1 + c.length) / (1 + df c t)) + 1

/-- The tf-idf weight of token `t` for document `doc` under corpus `c`. -/
noncomputable def tfidf (c : List String) (doc t : String) : ℝ :=
  (tf t doc : ℝ) * idf c t

/-- Dot product of the tf-idf vectors of `u` and `v` over the fitted
vocabulary (tokens outside the vocabulary are dropped by `transform`). -/
noncomputable def dotp (c : List String) (u v : String) : ℝ :=
  ((vocab c).map (fun t => tfidf c u t * tfidf c v t)).sum

/-- Euclidean norm of the tf-idf vector of `u`. -/
noncomputable def tnorm (c : List String) (u : String) : ℝ :=
  Real.sqrt (((vocab c).map (fun t => tfidf c u t ^ 2)).sum)

/-- `cosine_similarity` between the tf-idf vectors of `u` and `v`:
the normalised dot product, with any zero-norm vector giving 0
(scikit-learn replaces zero norms by 1 when normalising, so a zero
row yields similarity 0 rather than a division error). The l2
normalisation `TfidfVectorizer` itself applies does not change this
value, as cosine similarity is scale-invariant. -/
noncomputable def cosineSim (c : List String) (u v : String) : ℝ :=
  if tnorm c u = 0 ∨ tnorm c v = 0 then 0
  else dotp c u v / (tnorm c u * tnorm c v)

/-- `np.max` over a similarity row (the rows taken here are non-empty:
every catalog entry has at least one reference symptom). -/
noncomputable def npMax : List ℝ → ℝ
  | [] => 0
  | x :: xs => xs.foldl max x

/-- `np.argmax`: index of the first occurrence of the maximum. -/
noncomputable def npArgmax : List ℝ → ℕ
  | [] => 0
  | x :: xs => if npMax (x :: xs) ≤ x then 0 else npArgmax xs + 1

/-- `all_known_symptoms` of `match_symptoms`: every reference symptom of
every catalog entry, in catalog order. -/
def all_known_symptoms : List String := DISEASE_DB.flatMap (fun d => d.2.symptoms)

/-- The corpus the per-request vectorizer is fitted on:
`all_known_symptoms + user_symptoms`. -/
def corpus (user_symptoms : List String) : List String :=
  all_known_symptoms ++ user_symptoms

/-- The similarity row `cosine_similarity(vec_user, vec_known)` of one
user symptom `us` against a reference symptom list `ref`. -/
noncomputable def simsTo (c : List String) (ref : List String) (us : String) : List ℝ :=
  ref.map (fun ks => cosineSim c us ks)

/-- The body of the inner loop of `match_symptoms`: if the maximum
similarity of `us` against `ref` reaches the threshold, increment the
score and append the best-matching reference symptom. -/
noncomputable def matchStep (c : List String) (threshold : ℝ) (ref : List String)
    (acc : ℕ × List String) (us : String) : ℕ × List String :=
  if threshold ≤ npMax (simsTo c ref us) then
    (acc.1 + 1, acc.2 ++ [ref.getD (npArgmax (simsTo c ref us)) ""])
  else acc

/-- `match_symptoms` of `dhyanee.py`: for every catalog entry, fold the
inner loop over the user symptoms, starting from score 0 and an empty
match list. The result is the `matched` dict in catalog insertion
order: `(disease, (score, matched_symptoms))`. -/
noncomputable def match_symptoms (user_symptoms : List String) (threshold : ℝ) :
    List (String × ℕ × List String) :=
  DISEASE_DB.map (fun d =>
    (d.1, user_symptoms.foldl (matchStep (corpus user_symptoms) threshold d.2.symptoms) (0, [])))

/-- The default threshold of `match_symptoms`. -/
noncomputable def defaultThreshold : ℝ := 0.4

/-- `sorted_results` of `dhyanee.py`:
`sorted(results.items(), key=lambda x: x[1]["score"], reverse=True)`.
Python's sort is stable (also with `reverse=True`), modelled by the
stable `List.mergeSort` under the total preorder
"score of the left is at least the score of the right". -/
noncomputable def sorted_results (user_symptoms : List String) (threshold : ℝ) :
    List (String × ℕ × List String) :=
  (match_symptoms user_symptoms threshold).mergeSort (fun a b => decide (b.2.1 ≤ a.2.1))

/-- Whether user symptom `u` qualifies as a match for reference list
`ref` at the given threshold (the test of the inner loop). -/
noncomputable def qualifiesB (c : List String) (threshold : ℝ) (ref : List String)
    (u : String) : Bool :=
  decide (threshold ≤ npMax (simsTo c ref u))

/-- The reference symptom recorded for a qualifying user symptom `u`:
the first one attaining the maximal similarity. -/
noncomputable def bestRef (c : List String) (ref : List String) (u : String) : String :=
  ref.getD (npArgmax (simsTo c ref u)) ""

/-- Whether two strings share at least one token. -/
def sharesTokenB (a b : String) : Bool :=
  decide (∃ t ∈ tokenize a, t ∈ tokenize b)

/-! ## Helper lemmas -/

/-- Unfolding the inner loop of `match_symptoms`: starting from
`(a, m)`, the fold over the user symptoms adds 1 to the score and
appends the best-matching reference symptom for exactly the qualifying
user symptoms, in input order. -/
lemma foldl_matchStep (c : List String) (t : ℝ) (ref : List String) :
    ∀ (us : List String) (a : ℕ) (m : List String),
      us.foldl (matchStep c t ref) (a, m)
        = (a + (us.filter (qualifiesB c t ref)).length,
           m ++ (us.filter (qualifiesB c t ref)).map (bestRef c ref)) := by
  intro us
  induction us with
  | nil => intro a m; simp
  | cons u us ih =>
    intro a m
    by_cases h : t ≤ npMax (simsTo c ref u)
    · have hq : qualifiesB c t ref u = true := decide_eq_true h
      simp only [List.foldl_cons, matchStep, if_pos h, ih, List.filter_cons, hq, if_true,
        List.map_cons, List.length_cons, bestRef]
      refine Prod.ext ?_ ?_
      · omega
      · simp
    · have hq : qualifiesB c t ref u = false := decide_eq_false h
      simp only [List.foldl_cons, matchStep, if_neg h, ih, List.filter_cons, hq,
        Bool.false_eq_true, if_false]

/-- If every element of `l` is related by `R` to its image under `f`,
then `l` and `l.map f` are pointwise related. -/
lemma forall₂_map_self {α β : Type*} (R : α → β → Prop) (f : α → β) :
    ∀ l : List α, (∀ a ∈ l, R a (f a)) → List.Forall₂ R l (l.map f)
  | [], _ => List.Forall₂.nil
  | a :: l, h =>
    List.Forall₂.cons (h a (List.mem_cons_self a l))
      (forall₂_map_self R f l fun x hx => h x (List.mem_cons_of_mem a hx))

/-- Pointwise relation between two maps over the same list. -/
lemma forall₂_map_map {α β γ : Type*} (R : β → γ → Prop) (f : α → β) (g : α → γ) :
    ∀ l : List α, (∀ a ∈ l, R (f a) (g a)) → List.Forall₂ R (l.map f) (l.map g)
  | [], _ => List.Forall₂.nil
  | a :: l, h =>
    List.Forall₂.cons (h a (List.mem_cons_self a l))
      (forall₂_map_map R f g l fun x hx => h x (List.mem_cons_of_mem a hx))

/-- Filtering with a pointwise-stronger predicate yields a shorter list. -/
lemma length_filter_mono {α : Type*} {p q : α → Bool} (l : List α)
    (h : ∀ a ∈ l, p a = true → q a = true) :
    (l.filter p).length ≤ (l.filter q).length := by
  rw [← List.countP_eq_length_filter, ← List.countP_eq_length_filter]
  exact List.countP_mono_left h

/-- Every reference symptom of a catalog entry occurs in
`all_known_symptoms`. -/
lemma mem_all_known {d : String × DiseaseInfo} {v : String}
    (hd : d ∈ DISEASE_DB) (hv : v ∈ d.2.symptoms) : v ∈ all_known_symptoms :=
  List.mem_flatMap.2 ⟨d, hd, hv⟩

/-- If two documents share no token, the product of their tf-idf
weights vanishes at every token. -/
lemma tfidf_mul_eq_zero {c : List String} {u v t : String}
    (h : sharesTokenB u v = false) : tfidf c u t * tfidf c v t = 0 := by
  have hns : ¬ ∃ x ∈ tokenize u, x ∈ tokenize v := by simpa [sharesTokenB] using h
  by_cases hu : t ∈ tokenize u
  · have hv : t ∉ tokenize v := fun hv => hns ⟨t, hu, hv⟩
    have htf : tf t v = 0 := List.count_eq_zero.2 hv
    simp [tfidf, htf]
  · have htf : tf t u = 0 := List.count_eq_zero.2 hu
    simp [tfidf, htf]

/-- If two documents share no token, their cosine similarity is 0
(their tf-idf dot product is a sum of zeros; the zero-norm guard also
returns 0). -/
lemma cosineSim_eq_zero {c : List String} {u v : String}
    (h : sharesTokenB u v = false) : cosineSim c u v = 0 := by
  have hd : dotp c u v = 0 := by
    rw [dotp]
    apply List.sum_eq_zero
    intro x hx
    obtain ⟨t, _, rfl⟩ := List.mem_map.1 hx
    exact tfidf_mul_eq_zero h
  rw [cosineSim]
  split
  · rfl
  · rw [hd, zero_div]

/-- A fold of `max` over zeros starting from zero stays zero. -/
lemma foldl_max_eq_zero : ∀ (l : List ℝ) (a : ℝ), a = 0 → (∀ x ∈ l, x = 0) →
    l.foldl max a = 0
  | [], _, ha, _ => ha
  | x :: l, a, ha, h =>
    foldl_max_eq_zero l (max a x)
      (by rw [ha, h x (List.mem_cons_self x l), max_self])
      (fun y hy => h y (List.mem_cons_of_mem x hy))

/-- `np.max` of an all-zero similarity row is 0. -/
lemma npMax_eq_zero {l : List ℝ} (h : ∀ x ∈ l, x = 0) : npMax l = 0 := by
  cases l with
  | nil => rfl
  | cons x l =>
    exact foldl_max_eq_zero l x (h x (List.mem_cons_self x l))
      (fun y hy => h y (List.mem_cons_of_mem x hy))

/-- The empty string is a substring of every string. -/
lemma occursIn_nil_left (l : List Char) : occursIn [] l = true := by
  cases l <;> simp [occursIn, leadsWith]

/-- Membership characterisation of `detect_emergency`. -/
lemma mem_detect_emergency {e : String} {xs : List String} :
    e ∈ detect_emergency xs ↔
      e ∈ EMERGENCY_SYMPTOMS ∧ ∃ s ∈ xs, substrB e s = true ∨ substrB s e = true := by
  simp only [detect_emergency, List.mem_dedup, List.mem_flatMap, List.mem_filter,
    Bool.or_eq_true]
  constructor
  · rintro ⟨s, hs, he, hsub⟩
    exact ⟨he, s, hs, hsub⟩
  · rintro ⟨he, s, hs, hsub⟩
    exact ⟨s, hs, he, hsub⟩

/-! ## Matcher claims -/

/-- C3: for every user-symptom list and threshold, each catalog entry's
MatchResult satisfies `score = length matched`; concretely, the
matched list records, in input order, exactly one best-matching
reference symptom per user symptom whose maximal similarity reaches
the threshold, and the score counts those user symptoms. -/
theorem match_symptoms_score_eq_matched_length (us : List String) (t : ℝ) :
    List.Forall₂ (fun d p =>
        p.1 = d.1 ∧
        p.2.1 = p.2.2.length ∧
        p.2.2 = (us.filter (qualifiesB (corpus us) t d.2.symptoms)).map
          (bestRef (corpus us) d.2.symptoms) ∧
        p.2.1 = (us.filter (qualifiesB (corpus us) t d.2.symptoms)).length)
      DISEASE_DB (match_symptoms us t) := by
  rw [match_symptoms]
  apply forall₂_map_self
  intro d _
  rw [foldl_matchStep]
  simp

/-- C4: for every user-symptom list and threshold, every catalog
entry's score satisfies `0 ≤ score ≤ length userSymptoms`. -/
theorem match_symptoms_score_bound (us : List String) (t : ℝ) :
    (match_symptoms us t).Forall (fun p => 0 ≤ p.2.1 ∧ p.2.1 ≤ us.length) := by
  rw [List.forall_iff_forall_mem]
  intro p hp
  rw [match_symptoms] at hp
  obtain ⟨d, _, rfl⟩ := List.mem_map.1 hp
  rw [foldl_matchStep]
  refine ⟨Nat.zero_le _, ?_⟩
  simpa using List.length_filter_le (qualifiesB (corpus us) t d.2.symptoms) us

/-- C5: threshold monotonicity — for the same input, raising the
threshold never increases any condition's score (entries are compared
condition-by-condition in catalog order). -/
theorem match_symptoms_threshold_mono (us : List String) (t1 t2 : ℝ) (h : t1 ≤ t2) :
    List.Forall₂ (fun p q => p.1 = q.1 ∧ q.2.1 ≤ p.2.1)
      (match_symptoms us t1) (match_symptoms us t2) := by
  rw [match_symptoms, match_symptoms]
  apply forall₂_map_map
  intro d _
  refine ⟨rfl, ?_⟩
  rw [foldl_matchStep, foldl_matchStep]
  simp only [Nat.zero_add]
  apply length_filter_mono
  intro u _ hu
  have h2 : t2 ≤ npMax (simsTo (corpus us) d.2.symptoms u) := of_decide_eq_true hu
  exact decide_eq_true (le_trans h h2)

/-- Witness for C5 at thresholds 0 ≤ 1 on input `["fever"]`. -/
theorem match_symptoms_threshold_mono_witness :
    ((0 : ℝ) ≤ 1) ∧
      List.Forall₂ (fun p q => p.1 = q.1 ∧ q.2.1 ≤ p.2.1)
        (match_symptoms ["fever"] 0) (match_symptoms ["fever"] 1) :=
  ⟨zero_le_one, match_symptoms_threshold_mono ["fever"] 0 1 zero_le_one⟩

/-- C7: on the empty user-symptom list the matcher is defined and gives
every catalog condition score 0 with an empty match list (the fold
over no user symptoms returns its initial accumulator; no exceptional
path exists). -/
theorem match_symptoms_empty (t : ℝ) :
    match_symptoms [] t = DISEASE_DB.map (fun d => (d.1, 0, [])) := rfl

/-- C8: user symptoms with no token in common with the catalog
(including token-less strings, whose embedded vector is zero) degrade
gracefully: every cosine similarity against a known symptom is 0, so
for any positive threshold no match is recorded and every condition
scores 0 with an empty match list. -/
theorem match_symptoms_no_token_overlap (us_list : List String) (t : ℝ) (ht : 0 < t)
    (h : us_list.all (fun s => all_known_symptoms.all (fun v => !sharesTokenB s v)) = true) :
    (∀ s ∈ us_list, ∀ v ∈ all_known_symptoms, cosineSim (corpus us_list) s v = 0) ∧
      (match_symptoms us_list t).Forall (fun p => p.2.1 = 0 ∧ p.2.2 = []) := by
  have h' : ∀ s ∈ us_list, ∀ v ∈ all_known_symptoms, sharesTokenB s v = false := by
    intro s hs v hv
    have h1 := List.all_eq_true.1 h s hs
    have h2 := List.all_eq_true.1 h1 v hv
    simpa using h2
  refine ⟨fun s hs v hv => cosineSim_eq_zero (h' s hs v hv), ?_⟩
  rw [List.forall_iff_forall_mem]
  intro p hp
  rw [match_symptoms] at hp
  obtain ⟨d, hd, rfl⟩ := List.mem_map.1 hp
  rw [foldl_matchStep]
  have hfilter : us_list.filter (qualifiesB (corpus us_list) t d.2.symptoms) = [] := by
    rw [List.filter_eq_nil_iff]
    intro u hu
    have hmax : npMax (simsTo (corpus us_list) d.2.symptoms u) = 0 := by
      apply npMax_eq_zero
      intro x hx
      obtain ⟨v, hv, rfl⟩ := List.mem_map.1 (by simpa [simsTo] using hx)
      exact cosineSim_eq_zero (h' u hu v (mem_all_known hd hv))
    simp only [qualifiesB, hmax, decide_eq_true_eq]
    exact not_le.2 ht
  simp [hfilter]

/-- Witness for C8 at threshold 1 on the nonsense input
`["zzqx", "wobble"]` (spec scenario D). -/
theorem match_symptoms_no_token_overlap_witness :
    ((0 : ℝ) < 1) ∧
      (["zzqx", "wobble"].all
        (fun s => all_known_symptoms.all (fun v => !sharesTokenB s v)) = true) ∧
      (match_symptoms ["zzqx", "wobble"] 1).Forall (fun p => p.2.1 = 0 ∧ p.2.2 = []) :=
  ⟨zero_lt_one, by decide,
    (match_symptoms_no_token_overlap ["zzqx", "wobble"] 1 zero_lt_one (by decide)).2⟩

/-- C6: `sorted_results` is sorted by score descending (any earlier
entry's score is at least any later entry's), and the sort is stable:
for every score value `k`, the entries of score `k` appear in exactly
the original catalog-iteration order of `match_symptoms`. -/
theorem sorted_results_sorted_stable (us : List String) (t : ℝ) :
    List.Pairwise (fun p q => q.2.1 ≤ p.2.1) (sorted_results us t) ∧
      ∀ k : ℕ, (sorted_results us t).filter (fun p => decide (p.2.1 = k))
        = (match_symptoms us t).filter (fun p => decide (p.2.1 = k)) := by
  have htrans : ∀ a b c_ : String × ℕ × List String,
      decide (b.2.1 ≤ a.2.1) = true → decide (c_.2.1 ≤ b.2.1) = true →
      decide (c_.2.1 ≤ a.2.1) = true := by
    intro a b c_ h1 h2
    simp only [decide_eq_true_eq] at h1 h2 ⊢
    omega
  have htotal : ∀ a b : String × ℕ × List String,
      (decide (b.2.1 ≤ a.2.1) || decide (a.2.1 ≤ b.2.1)) = true := by
    intro a b
    simp only [Bool.or_eq_true, decide_eq_true_eq]
    exact Nat.le_total b.2.1 a.2.1
  constructor
  · rw [sorted_results]
    exact (List.sorted_mergeSort htrans htotal (match_symptoms us t)).imp
      (fun hab => of_decide_eq_true hab)
  · intro k
    have hsubl : ((match_symptoms us t).filter (fun p => decide (p.2.1 = k))).Sublist
        (match_symptoms us t) := List.filter_sublist _
    have hpw : List.Pairwise (fun a b => decide (b.2.1 ≤ a.2.1) = true)
        ((match_symptoms us t).filter (fun p => decide (p.2.1 = k))) := by
      apply List.pairwise_of_forall_mem_list
      intro a ha b hb
      have ha' := (List.mem_filter.1 ha).2
      have hb' := (List.mem_filter.1 hb).2
      simp only [decide_eq_true_eq] at ha' hb' ⊢
      omega
    have hsub2 := List.sublist_mergeSort htrans htotal hpw hsubl
    have hid : (((match_symptoms us t).filter (fun p => decide (p.2.1 = k))).filter
          (fun p => decide (p.2.1 = k)))
        = (match_symptoms us t).filter (fun p => decide (p.2.1 = k)) :=
      List.filter_eq_self.2 (fun a ha => (List.mem_filter.1 ha).2)
    have hsub3 := hid ▸ List.Sublist.filter
      (fun p : String × ℕ × List String => decide (p.2.1 = k)) hsub2
    have hperm : ((((match_symptoms us t).mergeSort
          (fun a b => decide (b.2.1 ≤ a.2.1))).filter (fun p => decide (p.2.1 = k)))).Perm
        ((match_symptoms us t).filter (fun p => decide (p.2.1 = k))) :=
      (List.mergeSort_perm (match_symptoms us t) _).filter _
    rw [sorted_results]
    exact (hsub3.eq_of_length hperm.length_eq.symm).symm

/-! ## Emergency-detector claims -/

/-- C1 counterexample: contrary to the claim, the user symptom "pain"
does trigger the emergency term "chest pain", because "pain" is a
substring of "chest pain" (Python's `s in em` direction). -/
theorem detect_emergency_pain_triggers_chest_pain :
    "chest pain" ∈ detect_emergency ["pain"] := by decide

/-- C1 amended: "pain" is a substring of "chest pain", so
`detect_emergency` on an input list containing only "pain" triggers
exactly the emergency term "chest pain" — short user tokens do
spuriously match longer emergency phrases. -/
theorem detect_emergency_pain_amended :
    substrB "pain" "chest pain" = true ∧
      detect_emergency ["pain"] = ["chest pain"] := by decide

/-- C2: `detect_emergency` returns, without duplicates, exactly the
emergency terms `e` of `EMERGENCY_SYMPTOMS` such that some user
symptom `s` satisfies `e in s or s in em`; in particular every member
is drawn from `EMERGENCY_SYMPTOMS`. -/
theorem detect_emergency_spec (xs : List String) :
    (detect_emergency xs).Nodup ∧
      ∀ e, e ∈ detect_emergency xs ↔
        e ∈ EMERGENCY_SYMPTOMS ∧ ∃ s ∈ xs, substrB e s = true ∨ substrB s e = true :=
  ⟨List.nodup_dedup _, fun _ => mem_detect_emergency⟩

/-- C9: if the input list contains the empty string, the triggered set
is the entire `EMERGENCY_SYMPTOMS` list, because the empty string is a
substring of every emergency term. -/
theorem detect_emergency_empty_string_all (xs : List String) (h : "" ∈ xs) :
    ∀ e, e ∈ detect_emergency xs ↔ e ∈ EMERGENCY_SYMPTOMS := by
  intro e
  rw [mem_detect_emergency]
  constructor
  · exact fun he => he.1
  · intro he
    exact ⟨he, "", h, Or.inr (occursIn_nil_left e.data)⟩

/-- Witness for C9 at the concrete input `[""]`. -/
theorem detect_emergency_empty_string_all_witness :
    ("" ∈ ([""] : List String)) ∧
      ("chest pain" ∈ detect_emergency [""] ↔ "chest pain" ∈ EMERGENCY_SYMPTOMS) :=
  ⟨by decide, detect_emergency_empty_string_all [""] (by decide) "chest pain"⟩

/-- C10: `detect_emergency` is monotone — every emergency term
triggered by `xs` is still triggered by `xs ++ ys`. -/
theorem detect_emergency_append_superset (xs ys : List String) (e : String)
    (h : e ∈ detect_emergency xs) : e ∈ detect_emergency (xs ++ ys) := by
  rw [mem_detect_emergency] at h ⊢
  obtain ⟨he, s, hs, hsub⟩ := h
  exact ⟨he, s, List.mem_append_left _ hs, hsub⟩

/-- Witness for C10 at concrete inputs. -/
theorem detect_emergency_append_superset_witness :
    ("chest pain" ∈ detect_emergency ["chest pain"]) ∧
      "chest pain" ∈ detect_emergency (["chest pain"] ++ ["zz"]) :=
  ⟨by decide,
    detect_emergency_append_superset ["chest pain"] ["zz"] "chest pain" (by decide)⟩
